import Mathlib

/-!
# Verification of the PGP key-management core

Shallow embedding of the key-record persistence and lifecycle layer of the
repository: the SQLite-backed `Db` record store (`db.ts`, second half, together
with the table declarations of `schema.sql`), the `KeyManager` lifecycle
operations (`key-manager.ts`), the passphrase-gated `decryptMessage` of
`pgp-tool.ts`, and the early JSON-store prototype `Database` (first half of
`db.ts`).

Tables are lists of stored rows.  SQLite persists booleans as the integers
0/1, so stored rows carry `Nat` fields for boolean columns, and the JS-level
record types (`Keypair`, `Contact`) carry `Bool` fields; `boolToInt` and
`intToBool` are the conversion helpers of `db.ts`.
-/

namespace Pgp

/-- `boolToInt` from `db.ts`: `value ? 1 : 0`. -/
def boolToInt (value : Bool) : Nat :=
  if value then 1 else 0

/-- `intToBool` from `db.ts`: `value === 1`. -/
def intToBool (value : Nat) : Bool :=
  value == 1

/-- A stored `keypair` row as SQLite holds it (`CREATE TABLE keypair` in
`schema.sql`): boolean columns are 0/1 integers, nullable columns are
`Option`. -/
structure KeypairRow where
  id : Nat
  name : String
  email : String
  fingerprint : String
  public_key : String
  private_key : String
  passphrase_protected : Nat
  algorithm : String
  key_size : String
  can_sign : Nat
  can_encrypt : Nat
  can_certify : Nat
  can_authenticate : Nat
  expires_at : Option String
  revoked : Nat
  revocation_reason : Option String
  created_at : String
  updated_at : String
  last_used_at : Option String
  is_default : Nat
deriving DecidableEq, Repr

/-- The JS-level `Keypair` type of `db.ts`: boolean fields are `boolean`. -/
structure Keypair where
  id : Nat
  name : String
  email : String
  fingerprint : String
  public_key : String
  private_key : String
  passphrase_protected : Bool
  algorithm : String
  key_size : String
  can_sign : Bool
  can_encrypt : Bool
  can_certify : Bool
  can_authenticate : Bool
  expires_at : Option String
  revoked : Bool
  revocation_reason : Option String
  created_at : String
  updated_at : String
  last_used_at : Option String
  is_default : Bool
deriving DecidableEq, Repr

/-- A stored `contact` row (`CREATE TABLE contact` in `schema.sql`). -/
structure ContactRow where
  id : Nat
  name : String
  email : String
  fingerprint : String
  public_key : String
  algorithm : String
  key_size : String
  trusted : Nat
  last_verified_at : Option String
  notes : Option String
  expires_at : Option String
  revoked : Nat
  created_at : String
  updated_at : String
deriving DecidableEq, Repr

/-- The JS-level `Contact` type of `db.ts`. -/
structure Contact where
  id : Nat
  name : String
  email : String
  fingerprint : String
  public_key : String
  algorithm : String
  key_size : String
  trusted : Bool
  last_verified_at : Option String
  notes : Option String
  expires_at : Option String
  revoked : Bool
  created_at : String
  updated_at : String
deriving DecidableEq, Repr

/-- A stored `settings` row (`CREATE TABLE settings` in `schema.sql`,
`CHECK (id = 1)` and `FOREIGN KEY (default_keypair_id) REFERENCES keypair(id)
ON DELETE SET NULL`). -/
structure SettingsRow where
  id : Nat
  default_keypair_id : Option Nat
  auto_sign_messages : Nat
  prefer_inline_pgp : Nat
  keyserver_url : String
deriving DecidableEq, Repr

/-- The whole persisted store: the three tables of `schema.sql` plus the
AUTOINCREMENT sequence counters SQLite keeps for `keypair` and `contact`. -/
structure DbState where
  keypair : List KeypairRow
  contact : List ContactRow
  settings : List SettingsRow
  keypairSeq : Nat
  contactSeq : Nat
deriving DecidableEq, Repr

/-- The conversion `Db.select` applies to a raw `keypair` row
(`intToBool` on every boolean column). -/
def keypairFromRow (r : KeypairRow) : Keypair :=
  { id := r.id
    name := r.name
    email := r.email
    fingerprint := r.fingerprint
    public_key := r.public_key
    private_key := r.private_key
    passphrase_protected := intToBool r.passphrase_protected
    algorithm := r.algorithm
    key_size := r.key_size
    can_sign := intToBool r.can_sign
    can_encrypt := intToBool r.can_encrypt
    can_certify := intToBool r.can_certify
    can_authenticate := intToBool r.can_authenticate
    expires_at := r.expires_at
    revoked := intToBool r.revoked
    revocation_reason := r.revocation_reason
    created_at := r.created_at
    updated_at := r.updated_at
    last_used_at := r.last_used_at
    is_default := intToBool r.is_default }

/-- The conversion `Db.select` applies to a raw `contact` row. -/
def contactFromRow (r : ContactRow) : Contact :=
  { id := r.id
    name := r.name
    email := r.email
    fingerprint := r.fingerprint
    public_key := r.public_key
    algorithm := r.algorithm
    key_size := r.key_size
    trusted := intToBool r.trusted
    last_verified_at := r.last_verified_at
    notes := r.notes
    expires_at := r.expires_at
    revoked := intToBool r.revoked
    created_at := r.created_at
    updated_at := r.updated_at }

/-- Error kinds surfaced by the store: `ConstraintViolation` is the SQLite
UNIQUE-constraint failure raised by `INSERT`, `InvariantViolation` is the
`Error('Cannot delete settings row')` thrown by `Db.delete`. -/
inductive DbError where
  | constraintViolation
  | invariantViolation
deriving DecidableEq, Repr

namespace Db

/-- The where-keys `KeyManager` actually passes to `Db.select` on the
`keypair` table (`{ key: 'id' | 'is_default', compare: 'is', value }`). -/
inductive KeypairWhereKey where
  | id
  | is_default
deriving DecidableEq, Repr

/-- Read the numeric column named by a `KeypairWhereKey` from a stored row. -/
def KeypairRow.getWhereKey (r : KeypairRow) : KeypairWhereKey → Nat
  | .id => r.id
  | .is_default => r.is_default

/-- `Db.select({table:'keypair', where: {key, compare:'is', value}})`:
`SELECT * FROM keypair WHERE key = value`, then `intToBool` on every boolean
column of each row. -/
def selectKeypairWhere (st : DbState) (k : KeypairWhereKey) (v : Nat) :
    List Keypair :=
  (st.keypair.filter (fun r => KeypairRow.getWhereKey r k == v)).map keypairFromRow

/-- `Db.select({table:'keypair'})` with no where clause. -/
def selectKeypairAll (st : DbState) : List Keypair :=
  st.keypair.map keypairFromRow

/-- The insert payload for `keypair`: `Omit<Keypair, 'id' | 'created_at' |
'updated_at'>`, boolean fields still JS booleans. -/
structure KeypairInsert where
  name : String
  email : String
  fingerprint : String
  public_key : String
  private_key : String
  passphrase_protected : Bool
  algorithm : String
  key_size : String
  can_sign : Bool
  can_encrypt : Bool
  can_certify : Bool
  can_authenticate : Bool
  expires_at : Option String
  revoked : Bool
  revocation_reason : Option String
  last_used_at : Option String
  is_default : Bool
deriving DecidableEq, Repr

/-- The stored row `Db.insert` builds from a `keypair` payload: stamps
`created_at`/`updated_at` with `now`, converts every boolean with
`boolToInt`, and lets AUTOINCREMENT assign `id`. -/
def keypairRowOfInsert (id : Nat) (now : String) (v : KeypairInsert) :
    KeypairRow :=
  { id := id
    name := v.name
    email := v.email
    fingerprint := v.fingerprint
    public_key := v.public_key
    private_key := v.private_key
    passphrase_protected := boolToInt v.passphrase_protected
    algorithm := v.algorithm
    key_size := v.key_size
    can_sign := boolToInt v.can_sign
    can_encrypt := boolToInt v.can_encrypt
    can_certify := boolToInt v.can_certify
    can_authenticate := boolToInt v.can_authenticate
    expires_at := v.expires_at
    revoked := boolToInt v.revoked
    revocation_reason := v.revocation_reason
    created_at := now
    updated_at := now
    last_used_at := v.last_used_at
    is_default := boolToInt v.is_default }

/-- `Db.insert('keypair', value)`.  The `INSERT` fails with a UNIQUE
constraint violation when a row with the same `email` or the same
`fingerprint` already exists (`email TEXT NOT NULL UNIQUE`,
`fingerprint TEXT NOT NULL UNIQUE` in `schema.sql`), leaving the table
untouched.  On success the code re-reads the inserted row by
`lastInsertRowid` and returns it RAW — `SELECT *` with no `intToBool`
conversion — so the returned value is the stored row, not a `Keypair`. -/
def insertKeypair (st : DbState) (now : String) (v : KeypairInsert) :
    DbState × Except DbError KeypairRow :=
  if st.keypair.any (fun r => r.email == v.email) ||
      st.keypair.any (fun r => r.fingerprint == v.fingerprint) then
    (st, .error .constraintViolation)
  else
    let id := st.keypairSeq + 1
    let row := keypairRowOfInsert id now v
    ({ st with keypair := st.keypair ++ [row], keypairSeq := id }, .ok row)

/-- The partial update records `KeyManager` passes to
`Db.update('keypair', ...)`: only the fields some call site actually sets.
`Option.none` means the field is absent from the update object. -/
structure KeypairUpdate where
  name : Option String := none
  is_default : Option Bool := none
  last_used_at : Option (Option String) := none
  revoked : Option Bool := none
  revocation_reason : Option (Option String) := none
deriving DecidableEq, Repr

/-- Apply an update object to one stored row: present boolean fields go
through `boolToInt`, and `updated_at` is stamped with `now` (as
`Db.update` always does). -/
def applyKeypairUpdate (now : String) (u : KeypairUpdate) (r : KeypairRow) :
    KeypairRow :=
  { r with
    name := u.name.getD r.name
    is_default := match u.is_default with
      | some b => boolToInt b
      | none => r.is_default
    last_used_at := u.last_used_at.getD r.last_used_at
    revoked := match u.revoked with
      | some b => boolToInt b
      | none => r.revoked
    revocation_reason := u.revocation_reason.getD r.revocation_reason
    updated_at := now }

/-- `Db.update('keypair', { key: 'id', value: idv }, updates)`:
`UPDATE keypair SET ... , updated_at = now WHERE id = ?`. -/
def updateKeypairById (st : DbState) (now : String) (idv : Nat)
    (u : KeypairUpdate) : DbState :=
  { st with
    keypair := st.keypair.map (fun r =>
      if r.id = idv then applyKeypairUpdate now u r else r) }

/-- `Db.delete('keypair', { key: 'id', value: idv })`:
`DELETE FROM keypair WHERE id = ?`.  The `settings` table declares
`FOREIGN KEY (default_keypair_id) REFERENCES keypair(id) ON DELETE SET
NULL`, so any settings row referencing a deleted id has its
`default_keypair_id` set to null. -/
def deleteKeypairById (st : DbState) (idv : Nat) : DbState :=
  { st with
    keypair := st.keypair.filter (fun r => !(r.id == idv))
    settings := st.settings.map (fun s =>
      if s.default_keypair_id = some idv then
        { s with default_keypair_id := none }
      else s) }

/-- The insert payload for `contact`. -/
structure ContactInsert where
  name : String
  email : String
  fingerprint : String
  public_key : String
  algorithm : String
  key_size : String
  trusted : Bool
  last_verified_at : Option String
  notes : Option String
  expires_at : Option String
  revoked : Bool
deriving DecidableEq, Repr

/-- The stored row `Db.insert` builds from a `contact` payload. -/
def contactRowOfInsert (id : Nat) (now : String) (v : ContactInsert) :
    ContactRow :=
  { id := id
    name := v.name
    email := v.email
    fingerprint := v.fingerprint
    public_key := v.public_key
    algorithm := v.algorithm
    key_size := v.key_size
    trusted := boolToInt v.trusted
    last_verified_at := v.last_verified_at
    notes := v.notes
    expires_at := v.expires_at
    revoked := boolToInt v.revoked
    created_at := now
    updated_at := now }

/-- `Db.insert('contact', value)`: only `fingerprint` is UNIQUE on
`contact` (`email` is not).  Returns the raw stored row, as for keypair. -/
def insertContact (st : DbState) (now : String) (v : ContactInsert) :
    DbState × Except DbError ContactRow :=
  if st.contact.any (fun r => r.fingerprint == v.fingerprint) then
    (st, .error .constraintViolation)
  else
    let id := st.contactSeq + 1
    let row := contactRowOfInsert id now v
    ({ st with contact := st.contact ++ [row], contactSeq := id }, .ok row)

/-- The partial update records `KeyManager` passes to
`Db.update('contact', ...)`. -/
structure ContactUpdate where
  name : Option String := none
  notes : Option (Option String) := none
  trusted : Option Bool := none
  last_verified_at : Option (Option String) := none
deriving DecidableEq, Repr

/-- Apply a contact update object to one stored row. -/
def applyContactUpdate (now : String) (u : ContactUpdate) (r : ContactRow) :
    ContactRow :=
  { r with
    name := u.name.getD r.name
    notes := u.notes.getD r.notes
    trusted := match u.trusted with
      | some b => boolToInt b
      | none => r.trusted
    last_verified_at := u.last_verified_at.getD r.last_verified_at
    updated_at := now }

/-- `Db.update('contact', { key: 'id', value: idv }, updates)`. -/
def updateContactById (st : DbState) (now : String) (idv : Nat)
    (u : ContactUpdate) : DbState :=
  { st with
    contact := st.contact.map (fun r =>
      if r.id = idv then applyContactUpdate now u r else r) }

/-- `Db.delete('contact', { key: 'id', value: idv })`. -/
def deleteContactById (st : DbState) (idv : Nat) : DbState :=
  { st with contact := st.contact.filter (fun r => !(r.id == idv)) }

/-- The seed row of the settings table
(`INSERT OR IGNORE INTO settings (id, auto_sign_messages, prefer_inline_pgp,
keyserver_url) VALUES (1, 0, 1, 'https://keys.openpgp.org')`). -/
def settingsSeedRow : SettingsRow :=
  { id := 1
    default_keypair_id := none
    auto_sign_messages := 0
    prefer_inline_pgp := 1
    keyserver_url := "https://keys.openpgp.org" }

/-- `Db.initializeSchema` runs `schema.sql`, whose only data statement is the
`INSERT OR IGNORE` seed above: if a settings row with id 1 already exists the
insert is ignored, otherwise the seed row is inserted. -/
def initializeSchema (st : DbState) : DbState :=
  if st.settings.any (fun s => s.id == 1) then st
  else { st with settings := st.settings ++ [settingsSeedRow] }

/-- The partial update payload for the singleton settings row. -/
structure SettingsUpdate where
  default_keypair_id : Option (Option Nat) := none
  auto_sign_messages : Option Bool := none
  prefer_inline_pgp : Option Bool := none
  keyserver_url : Option String := none
deriving DecidableEq, Repr

/-- Apply a settings update object to a stored settings row. -/
def applySettingsUpdate (u : SettingsUpdate) (s : SettingsRow) : SettingsRow :=
  { s with
    default_keypair_id := u.default_keypair_id.getD s.default_keypair_id
    auto_sign_messages := match u.auto_sign_messages with
      | some b => boolToInt b
      | none => s.auto_sign_messages
    prefer_inline_pgp := match u.prefer_inline_pgp with
      | some b => boolToInt b
      | none => s.prefer_inline_pgp
    keyserver_url := u.keyserver_url.getD s.keyserver_url }

/-- `Db.insert('settings', value)`: "Settings is a single row, use UPDATE
instead" — the code issues `UPDATE settings SET ... WHERE id = 1`, never an
`INSERT`, so no row is ever added. -/
def insertSettings (st : DbState) (u : SettingsUpdate) : DbState :=
  { st with
    settings := st.settings.map (fun s =>
      if s.id = 1 then applySettingsUpdate u s else s) }

/-- `Db.update('settings', ...)`: the same `UPDATE ... WHERE` shape; every
caller matches the singleton row by `id = 1`. -/
def updateSettings (st : DbState) (u : SettingsUpdate) : DbState :=
  insertSettings st u

/-- `Db.delete('settings', ...)`: `throw new Error('Cannot delete settings
row')` before touching the database — the state is returned untouched with
the `InvariantViolation` error. -/
def deleteSettings (st : DbState) : DbState × Except DbError Unit :=
  (st, .error .invariantViolation)

end Db

/-- An armored key blob at the interface of the Key Metadata Extractor:
either it parses, yielding a key whose fingerprint we can read, or it does
not parse.  Modelled from the spec: `key-utils.ts` is not among the source
files; §4.2 specifies `fingerprint(handle) → hex string` and that
`verifyKeyPair` treats unparseable input as mismatch. -/
inductive ArmoredKey where
  | parsed (fingerprint : String)
  | malformed
deriving DecidableEq, Repr

/-- Modelled from the spec: `verifyKeyPair(publicArmored, privateArmored)`
of the missing `key-utils.ts` — "returns true iff the two blobs'
fingerprints match exactly; any parse failure on either side yields false,
never throws". -/
def verifyKeyPair : ArmoredKey → ArmoredKey → Bool
  | .parsed f1, .parsed f2 => f1 == f2
  | _, _ => false

/-- The metadata record `extractPrivateKeyInfo` / `extractPublicKeyInfo`
returns (collaborator output consumed by `KeyManager`); its production is
delegated to the extractor, so lifecycle operations take it as input. -/
structure KeyInfo where
  email : String
  fingerprint : String
  passphraseProtected : Bool
  algorithm : String
  keySize : String
  canSign : Bool
  canEncrypt : Bool
  canCertify : Bool
  canAuthenticate : Bool
  expiresAt : Option String
deriving DecidableEq, Repr

/-- Outcome of a `KeyManager.importKeypair` run (the persistence-relevant
paths of the interactive flow). -/
inductive ImportResult where
  | ok
  | keyMismatch
  | insertError (e : DbError)
deriving DecidableEq, Repr

namespace KeyManager

/-- `KeyManager.hasDefaultKeypair`: selects `is_default = 1` rows and tests
non-emptiness. -/
def hasDefaultKeypair (st : DbState) : Bool :=
  (Db.selectKeypairWhere st .is_default 1).length > 0

/-- `KeyManager.getDefaultKeypair`: first `is_default = 1` row or null. -/
def getDefaultKeypair (st : DbState) : Option Keypair :=
  (Db.selectKeypairWhere st .is_default 1).head?

/-- The keypair insert payload every import/generate path builds from the
extracted metadata (`revoked: false`, `revocation_reason: null`,
`last_used_at: null`). -/
def insertOfKeyInfo (name : String) (publicKey privateKey : String)
    (info : KeyInfo) (isDefault : Bool) : Db.KeypairInsert :=
  { name := name
    email := info.email
    fingerprint := info.fingerprint
    public_key := publicKey
    private_key := privateKey
    passphrase_protected := info.passphraseProtected
    algorithm := info.algorithm
    key_size := info.keySize
    can_sign := info.canSign
    can_encrypt := info.canEncrypt
    can_certify := info.canCertify
    can_authenticate := info.canAuthenticate
    expires_at := info.expiresAt
    revoked := false
    revocation_reason := none
    last_used_at := none
    is_default := isDefault }

/-- The "unset current default" loop shared by the import paths: for each
row of a previously selected snapshot, `db.update('keypair', { key: 'id',
value: kp.id }, { is_default: false })`. -/
def unsetDefaultsLoop (st : DbState) (now : String) (kps : List Keypair) :
    DbState :=
  kps.foldl (fun s kp =>
    Db.updateKeypairById s now kp.id { is_default := some false }) st

/-- `KeyManager.importKeypair` (persistence core): if `verifyKeyPair`
returns false the operation prints an error and RETURNS — before the
default-unset loop and before any insert.  Otherwise, when the keypair is to
become the default, every currently-default row (snapshot of
`select is_default = 1`) has `is_default` set to false; then the new row is
inserted with `is_default = makeDefault`.  An insert failure is caught (the
`catch` block prints the error). -/
def importKeypair (st : DbState) (now : String) (publicKey privateKey : ArmoredKey)
    (pubArmor privArmor : String) (name : String) (info : KeyInfo)
    (makeDefault : Bool) : DbState × ImportResult :=
  if !verifyKeyPair publicKey privateKey then
    (st, .keyMismatch)
  else
    let st1 :=
      if makeDefault then
        unsetDefaultsLoop st now (Db.selectKeypairWhere st .is_default 1)
      else st
    match Db.insertKeypair st1 now
        (insertOfKeyInfo name pubArmor privArmor info makeDefault) with
    | (st2, .ok _) => (st2, .ok)
    | (st2, .error e) => (st2, .insertError e)

/-- `KeyManager.generateKeypair` (persistence core): key material and
metadata come from the crypto collaborator; when `setAsDefault` the code
walks ALL keypair rows (`select` with no where) and sets `is_default:
false` on each, then inserts the generated keypair with
`passphrase_protected: true` and `is_default = setAsDefault`. -/
def generateKeypair (st : DbState) (now : String) (keypairName : String)
    (pubArmor privArmor : String) (info : KeyInfo) (setAsDefault : Bool) :
    DbState × ImportResult :=
  let st1 :=
    if setAsDefault then
      unsetDefaultsLoop st now (Db.selectKeypairAll st)
    else st
  match Db.insertKeypair st1 now
      { insertOfKeyInfo keypairName pubArmor privArmor info setAsDefault with
        passphrase_protected := true } with
  | (st2, .ok _) => (st2, .ok)
  | (st2, .error e) => (st2, .insertError e)

/-- `KeyManager.importFromSystemGpg` (persistence core): after exporting
both halves from the system keyring and extracting metadata, it performs the
same unset-current-defaults loop and insert as `importKeypair` (the code has
no `verifyKeyPair` step on this path). -/
def importFromSystemGpg (st : DbState) (now : String)
    (pubArmor privArmor : String) (name : String) (info : KeyInfo)
    (setDefault : Bool) : DbState × ImportResult :=
  let st1 :=
    if setDefault then
      unsetDefaultsLoop st now (Db.selectKeypairWhere st .is_default 1)
    else st
  match Db.insertKeypair st1 now
      (insertOfKeyInfo name pubArmor privArmor info setDefault) with
  | (st2, .ok _) => (st2, .ok)
  | (st2, .error e) => (st2, .insertError e)

/-- `KeyManager.setDefaultKeypairById`: unsets `is_default` on EVERY row
(snapshot of the whole table), then sets `is_default: true` on the row with
the given id. -/
def setDefaultKeypairById (st : DbState) (now : String) (keypairId : Nat) :
    DbState :=
  let st1 := unsetDefaultsLoop st now (Db.selectKeypairAll st)
  Db.updateKeypairById st1 now keypairId { is_default := some true }

/-- `KeyManager.renameKeypair`: `db.update('keypair', { key: 'id', value },
{ name: newName.trim() })` (the trim happens before the call). -/
def renameKeypair (st : DbState) (now : String) (keypairId : Nat)
    (newName : String) : DbState :=
  Db.updateKeypairById st now keypairId { name := some newName }

/-- Modelled from the spec: the repository has no revoke code path, only the
`revoked` flag and `revocation_reason` column; §3 says revocation "is an
orthogonal flag, not a state-machine exit", i.e. a field-level mutation of
the row, which through the store is an update of those two fields. -/
def revokeKeypair (st : DbState) (now : String) (keypairId : Nat)
    (reason : Option String) : DbState :=
  Db.updateKeypairById st now keypairId
    { revoked := some true, revocation_reason := some reason }

/-- `KeyManager.deleteKeypairById` after the user confirmed: `db.delete`
with the id (the cancelled branch touches nothing and returns false). -/
def deleteKeypairById (st : DbState) (keypairId : Nat) (confirm : Bool) :
    DbState × Bool :=
  if confirm then (Db.deleteKeypairById st keypairId, true) else (st, false)

/-- `KeyManager.toggleContactTrust`: flips the snapshot's `trusted` flag;
`last_verified_at` becomes the current time when the new status is trusted,
and is written back as the snapshot's own previous value otherwise. -/
def toggleContactTrust (st : DbState) (now : String) (c : Contact) :
    DbState :=
  let newTrustStatus := !c.trusted
  Db.updateContactById st now c.id
    { trusted := some newTrustStatus
      last_verified_at :=
        some (if newTrustStatus then some now else c.last_verified_at) }

end KeyManager

/-! ## The passphrase session cache and `decryptMessage` (`pgp-tool.ts`) -/

/-- `passphraseCache = new Map<number, string>()`: keypair id → validated
passphrase, as an association list in insertion order. -/
abbrev PassphraseCache := List (Nat × String)

/-- `Map.has`. -/
def cacheHas (c : PassphraseCache) (k : Nat) : Bool :=
  c.any (fun p => p.1 == k)

/-- `Map.get` (first entry for the key; `Map` holds at most one). -/
def cacheGet (c : PassphraseCache) (k : Nat) : Option String :=
  (c.find? (fun p => p.1 == k)).map (fun p => p.2)

/-- `Map.set`: replaces an existing entry, else appends. -/
def cacheSet (c : PassphraseCache) (k : Nat) (v : String) : PassphraseCache :=
  if cacheHas c k then
    c.map (fun p => if p.1 == k then (k, v) else p)
  else c ++ [(k, v)]

/-- `clearPassphraseCache` of `pgp-tool.ts`. -/
def cacheClear (_c : PassphraseCache) : PassphraseCache := []

/-- The ways `decryptMessage` can fail before delegating the actual message
decryption to the crypto collaborator. -/
inductive DecryptError where
  | incorrectPassphrase
deriving DecidableEq, Repr

/-- The passphrase-session outcome of one `decryptMessage` call: the cache
afterwards, whether the user was prompted, and the passphrase handed to the
final `openpgp.decryptKey` (or the `IncorrectPassphrase` failure). -/
structure DecryptOutcome where
  cache : PassphraseCache
  prompted : Bool
  result : Except DecryptError String
deriving Repr

/-- `decryptMessage` of `pgp-tool.ts`, passphrase-session core, for a given
default keypair `kp`.  `promptInput` is the value the user would enter if
prompted; `validate` is the collaborator check "does
`openpgp.decryptKey(readPrivateKey(kp.private_key), passphrase)` succeed".
The code: if the keypair is passphrase-protected and the cache has an entry
for its id, use it without prompting; if absent, prompt, validate, cache on
success, and throw `Incorrect passphrase` on failure without caching; if not
passphrase-protected, the passphrase stays the initial `''` and the cache is
never consulted or written. -/
def decryptMessage (kp : Keypair) (cache : PassphraseCache)
    (promptInput : String) (validate : String → Bool) : DecryptOutcome :=
  if kp.passphrase_protected then
    if cacheHas cache kp.id then
      { cache := cache
        prompted := false
        result := .ok ((cacheGet cache kp.id).getD "") }
    else if validate promptInput then
      { cache := cacheSet cache kp.id promptInput
        prompted := true
        result := .ok promptInput }
    else
      { cache := cache
        prompted := true
        result := .error .incorrectPassphrase }
  else
    { cache := cache, prompted := false, result := .ok "" }

/-! ## The early JSON-store prototype `Database` (first half of `db.ts`) -/

namespace Proto

/-- A JavaScript field value as the JSON prototype stores it: the row types
mix strings, numbers, booleans; a missing/optional field reads as
`undefined`, an explicit null as `null`.  `===` distinguishes all of them. -/
inductive Value where
  | str (s : String)
  | num (n : Int)
  | bool (b : Bool)
  | null
  | undefinedV
deriving DecidableEq, Repr

/-- A row of the prototype store, as its field/value pairs. -/
abbrev Row := List (String × Value)

/-- JavaScript property read `row[key]`: the field's value, `undefined` when
the row has no such field. -/
def rowGet (row : Row) (key : String) : Value :=
  ((row.find? (fun p => p.1 == key)).map (fun p => p.2)).getD .undefinedV

/-- The comparator of the prototype's `where` clause:
`'is' | 'is not' | 'like' | 'not like'`. -/
inductive Compare where
  | is_
  | isNot
  | like
  | notLike
deriving DecidableEq, Repr

/-- The `where` clause: `{ key, compare, value }`. -/
structure Where where
  key : String
  compare : Compare
  value : Value
deriving DecidableEq, Repr

/-- `String.prototype.includes`: substring containment, as the decidable
infix test on the character lists. -/
def strIncludes (s v : String) : Bool :=
  decide (List.IsInfix v.data s.data)

/-- The row predicate of `Database.select`'s `filter` callback:
`is` is `===`, `is not` is `!==`, and `like` / `not like` first require BOTH
the row value and the compare value to be strings (`typeof x === 'string'`)
— any other type makes the callback return false for both of them — and
then test `.includes`. -/
def matchesWhere (w : Where) (row : Row) : Bool :=
  let rowValue := rowGet row w.key
  match w.compare with
  | .is_ => rowValue == w.value
  | .isNot => rowValue != w.value
  | .like =>
    match rowValue, w.value with
    | .str s, .str v => strIncludes s v
    | _, _ => false
  | .notLike =>
    match rowValue, w.value with
    | .str s, .str v => !strIncludes s v
    | _, _ => false

/-- `Database.select({ table, where? })` of the JSON prototype: the whole
table when `where` is absent, otherwise `results.filter(...)` with the
callback above.  Always total: it returns a (possibly empty) list and never
throws. -/
def select (table : List Row) (w : Option Where) : List Row :=
  match w with
  | none => table
  | some w => table.filter (matchesWhere w)

end Proto

/-! ## Derived notions used by the statements -/

/-- A freshly created store: the SQLite file starts with empty tables and
zeroed AUTOINCREMENT sequences; `Db.initializeSchema` then runs
`schema.sql` against it. -/
def emptyDb : DbState :=
  { keypair := [], contact := [], settings := [], keypairSeq := 0, contactSeq := 0 }

/-- Number of persisted keypair rows whose `is_default` column holds 1. -/
def defaultCount (st : DbState) : Nat :=
  st.keypair.countP (fun r => r.is_default == 1)

/-- The single-default invariant of §3: at most one row has
`is_default = 1` across the whole table. -/
def atMostOneDefault (st : DbState) : Prop :=
  defaultCount st ≤ 1

/-- The PRIMARY KEY well-formedness of the `keypair` table: row ids are
pairwise distinct. -/
def keypairIdsNodup (st : DbState) : Prop :=
  (st.keypair.map (fun r => r.id)).Nodup

/-- An operation the application can run against the settings table:
`Db.insert('settings', ...)` or `Db.update('settings', ...)` (both are SQL
`UPDATE`s of the singleton row). -/
inductive SettingsOp where
  | ins (u : Db.SettingsUpdate)
  | upd (u : Db.SettingsUpdate)

/-- Run a sequence of settings operations. -/
def applySettingsOps (st : DbState) (ops : List SettingsOp) : DbState :=
  ops.foldl (fun s op =>
    match op with
    | .ins u => Db.insertSettings s u
    | .upd u => Db.updateSettings s u) st

/-- Pointwise description of the unset-defaults loop: a row whose id occurs
in the processed snapshot receives the `{ is_default: false }` update,
every other row is untouched. -/
def unsetIfIn (now : String) (ids : List Nat) (r : KeypairRow) : KeypairRow :=
  if r.id ∈ ids then Db.applyKeypairUpdate now { is_default := some false } r else r

/-- A concrete keypair insert payload with `passphrase_protected = true`,
used to exercise the boolean round-trip at the store boundary. -/
def demoKeypairInsert : Db.KeypairInsert :=
  { name := "Personal", email := "a@x.com", fingerprint := "AAAA",
    public_key := "pubA", private_key := "privA",
    passphrase_protected := true, algorithm := "RSA", key_size := "4096",
    can_sign := true, can_encrypt := true, can_certify := false,
    can_authenticate := false, expires_at := none, revoked := false,
    revocation_reason := none, last_used_at := none, is_default := true }

/-! ## Theorems -/

/-- C4: on a decrypt request for a passphrase-protected default keypair:
a cache hit for the keypair's id is used without prompting and leaves the
cache unchanged; on a miss the user is prompted once and the entered value
is validated — on success it is cached under the keypair id and handed to
the key unlock, on failure the decrypt fails with `IncorrectPassphrase`,
nothing is cached, and a subsequent attempt (same cache) prompts again. -/
theorem decrypt_passphrase_session (kp : Keypair) (cache : PassphraseCache)
    (input : String) (validate : String → Bool)
    (hp : kp.passphrase_protected = true) :
    (cacheHas cache kp.id = true →
      decryptMessage kp cache input validate =
        { cache := cache, prompted := false,
          result := .ok ((cacheGet cache kp.id).getD "") }) ∧
    (cacheHas cache kp.id = false → validate input = true →
      decryptMessage kp cache input validate =
        { cache := cacheSet cache kp.id input, prompted := true,
          result := .ok input }) ∧
    (cacheHas cache kp.id = false → validate input = false →
      decryptMessage kp cache input validate =
        { cache := cache, prompted := true,
          result := .error .incorrectPassphrase } ∧
      ∀ input2 : String,
        (decryptMessage kp
          (decryptMessage kp cache input validate).cache input2 validate).prompted
          = true) := by
  refine ⟨fun hhit => ?_, fun hmiss hok => ?_, fun hmiss hbad => ⟨?_, fun input2 => ?_⟩⟩
  · simp [decryptMessage, hp, hhit]
  · simp [decryptMessage, hp, hmiss, hok]
  · simp [decryptMessage, hp, hmiss, hbad]
  · simp only [decryptMessage, hp, hmiss, hbad]
    by_cases hv : validate input2 = true <;> simp [hv, hmiss]

/-- Closed witness for the C4 theorem at a concrete keypair and cache. -/
theorem decrypt_passphrase_session_witness :
    decryptMessage
        { id := 1, name := "P", email := "a@x", fingerprint := "F",
          public_key := "pub", private_key := "priv",
          passphrase_protected := true, algorithm := "RSA",
          key_size := "4096", can_sign := true, can_encrypt := true,
          can_certify := false, can_authenticate := false,
          expires_at := none, revoked := false, revocation_reason := none,
          created_at := "t", updated_at := "t", last_used_at := none,
          is_default := true }
        [(1, "hunter2")] "zzz" (fun p => p == "hunter2") =
      { cache := [(1, "hunter2")], prompted := false, result := .ok "hunter2" } :=
  (decrypt_passphrase_session
      { id := 1, name := "P", email := "a@x", fingerprint := "F",
        public_key := "pub", private_key := "priv",
        passphrase_protected := true, algorithm := "RSA",
        key_size := "4096", can_sign := true, can_encrypt := true,
        can_certify := false, can_authenticate := false,
        expires_at := none, revoked := false, revocation_reason := none,
        created_at := "t", updated_at := "t", last_used_at := none,
        is_default := true }
      [(1, "hunter2")] "zzz" (fun p => p == "hunter2") rfl).1 rfl

/-- C10: when the default keypair is not passphrase-protected,
`decryptMessage` issues no prompt, leaves the passphrase cache exactly as
it was, and unlocks the private key with the empty passphrase. -/
theorem decrypt_unprotected_no_prompt_no_cache (kp : Keypair)
    (cache : PassphraseCache) (input : String) (validate : String → Bool)
    (hp : kp.passphrase_protected = false) :
    decryptMessage kp cache input validate =
      { cache := cache, prompted := false, result := .ok "" } := by
  simp [decryptMessage, hp]

/-- Closed witness for the C10 theorem. -/
theorem decrypt_unprotected_no_prompt_no_cache_witness :
    decryptMessage
        { id := 2, name := "P", email := "a@x", fingerprint := "F",
          public_key := "pub", private_key := "priv",
          passphrase_protected := false, algorithm := "RSA",
          key_size := "4096", can_sign := true, can_encrypt := true,
          can_certify := false, can_authenticate := false,
          expires_at := none, revoked := false, revocation_reason := none,
          created_at := "t", updated_at := "t", last_used_at := none,
          is_default := true }
        [(7, "x")] "pw" (fun _ => false) =
      { cache := [(7, "x")], prompted := false, result := .ok "" } :=
  decrypt_unprotected_no_prompt_no_cache
    { id := 2, name := "P", email := "a@x", fingerprint := "F",
      public_key := "pub", private_key := "priv",
      passphrase_protected := false, algorithm := "RSA",
      key_size := "4096", can_sign := true, can_encrypt := true,
      can_certify := false, can_authenticate := false,
      expires_at := none, revoked := false, revocation_reason := none,
      created_at := "t", updated_at := "t", last_used_at := none,
      is_default := true }
    [(7, "x")] "pw" (fun _ => false) rfl

/-- C6: when `verifyKeyPair` reports that the public and private blobs do
not match, `importKeypair` aborts with `KeyMismatch` before the
default-unset loop and before any insert: the returned store is exactly
the input store. -/
theorem import_key_mismatch_aborts (st : DbState) (now : String)
    (publicKey privateKey : ArmoredKey) (pubArmor privArmor name : String)
    (info : KeyInfo) (makeDefault : Bool)
    (h : verifyKeyPair publicKey privateKey = false) :
    KeyManager.importKeypair st now publicKey privateKey pubArmor privArmor
        name info makeDefault = (st, .keyMismatch) := by
  simp [KeyManager.importKeypair, h]

/-- Closed witness for the C6 theorem: two parseable keys with different
fingerprints. -/
theorem import_key_mismatch_aborts_witness :
    KeyManager.importKeypair emptyDb "t1" (.parsed "AAAA") (.parsed "BBBB")
        "pubA" "privB" "Personal"
        { email := "a@x.com", fingerprint := "AAAA",
          passphraseProtected := true, algorithm := "RSA", keySize := "4096",
          canSign := true, canEncrypt := true, canCertify := false,
          canAuthenticate := false, expiresAt := none } true =
      (emptyDb, .keyMismatch) :=
  import_key_mismatch_aborts emptyDb "t1" (.parsed "AAAA") (.parsed "BBBB")
    "pubA" "privB" "Personal"
    { email := "a@x.com", fingerprint := "AAAA",
      passphraseProtected := true, algorithm := "RSA", keySize := "4096",
      canSign := true, canEncrypt := true, canCertify := false,
      canAuthenticate := false, expiresAt := none } true (by decide)

/-- C2: inserting a keypair row whose email, or whose fingerprint, already
occurs in the table fails with `ConstraintViolation` and returns the store
unchanged (same rows, same row count). -/
theorem insert_duplicate_constraint_violation (st : DbState) (now : String)
    (v : Db.KeypairInsert)
    (h : (∃ r ∈ st.keypair, r.email = v.email) ∨
         (∃ r ∈ st.keypair, r.fingerprint = v.fingerprint)) :
    Db.insertKeypair st now v = (st, .error .constraintViolation) := by
  have hcond : (st.keypair.any (fun r => r.email == v.email) ||
      st.keypair.any (fun r => r.fingerprint == v.fingerprint)) = true := by
    rcases h with ⟨r, hr, he⟩ | ⟨r, hr, hf⟩
    · exact Bool.or_eq_true_iff.mpr (.inl (List.any_eq_true.mpr ⟨r, hr, by simp [he]⟩))
    · exact Bool.or_eq_true_iff.mpr (.inr (List.any_eq_true.mpr ⟨r, hr, by simp [hf]⟩))
  simp [Db.insertKeypair, hcond]

/-- Closed witness for the C2 theorem: a store holding one keypair row and
a second insert reusing its email. -/
theorem insert_duplicate_constraint_violation_witness :
    Db.insertKeypair
        { emptyDb with
          keypair := [Db.keypairRowOfInsert 1 "t1"
            { name := "P", email := "a@x.com", fingerprint := "AAAA",
              public_key := "pub", private_key := "priv",
              passphrase_protected := true, algorithm := "RSA",
              key_size := "4096", can_sign := true, can_encrypt := true,
              can_certify := false, can_authenticate := false,
              expires_at := none, revoked := false, revocation_reason := none,
              last_used_at := none, is_default := true }]
          keypairSeq := 1 }
        "t2"
        { name := "Q", email := "a@x.com", fingerprint := "BBBB",
          public_key := "pub2", private_key := "priv2",
          passphrase_protected := false, algorithm := "RSA",
          key_size := "4096", can_sign := true, can_encrypt := true,
          can_certify := false, can_authenticate := false,
          expires_at := none, revoked := false, revocation_reason := none,
          last_used_at := none, is_default := false } =
      ({ emptyDb with
          keypair := [Db.keypairRowOfInsert 1 "t1"
            { name := "P", email := "a@x.com", fingerprint := "AAAA",
              public_key := "pub", private_key := "priv",
              passphrase_protected := true, algorithm := "RSA",
              key_size := "4096", can_sign := true, can_encrypt := true,
              can_certify := false, can_authenticate := false,
              expires_at := none, revoked := false, revocation_reason := none,
              last_used_at := none, is_default := true }]
          keypairSeq := 1 }, .error .constraintViolation) :=
  insert_duplicate_constraint_violation _ "t2" _
    (.inl ⟨Db.keypairRowOfInsert 1 "t1"
      { name := "P", email := "a@x.com", fingerprint := "AAAA",
        public_key := "pub", private_key := "priv",
        passphrase_protected := true, algorithm := "RSA",
        key_size := "4096", can_sign := true, can_encrypt := true,
        can_certify := false, can_authenticate := false,
        expires_at := none, revoked := false, revocation_reason := none,
        last_used_at := none, is_default := true }, by decide, by decide⟩)

/-- C5: the settings table holds exactly one row immediately after first
initialization; every insert or update operation preserves the row count
(a second insert never creates a row, because `Db.insert('settings', ...)`
is an `UPDATE`); and any delete attempt fails with `InvariantViolation`
returning the store untouched. -/
theorem settings_singleton_invariant :
    (Db.initializeSchema emptyDb).settings.length = 1 ∧
    (∀ (st : DbState) (ops : List SettingsOp),
      (applySettingsOps st ops).settings.length = st.settings.length) ∧
    (∀ st : DbState, Db.deleteSettings st = (st, .error .invariantViolation)) := by
  refine ⟨by decide, fun st ops => ?_, fun st => rfl⟩
  induction ops generalizing st with
  | nil => rfl
  | cons op ops ih =>
    cases op with
    | ins u =>
      simpa [applySettingsOps, Db.insertSettings] using ih (Db.insertSettings st u)
    | upd u =>
      simpa [applySettingsOps, Db.updateSettings, Db.insertSettings] using
        ih (Db.updateSettings st u)

/-- C3: deleting a keypair row through the store nulls out any settings
reference to it (`ON DELETE SET NULL`): afterwards no settings row points
at the deleted id, the formerly-referencing row survives with its pointer
set to null, non-referencing settings rows are untouched, and no keypair
row with the deleted id remains. -/
theorem delete_keypair_nulls_settings_reference (st : DbState) (idv : Nat) :
    (∀ s ∈ (Db.deleteKeypairById st idv).settings,
      s.default_keypair_id ≠ some idv) ∧
    (∀ s ∈ st.settings, s.default_keypair_id = some idv →
      { s with default_keypair_id := none } ∈
        (Db.deleteKeypairById st idv).settings) ∧
    (∀ s ∈ st.settings, s.default_keypair_id ≠ some idv →
      s ∈ (Db.deleteKeypairById st idv).settings) ∧
    (∀ r ∈ (Db.deleteKeypairById st idv).keypair, r.id ≠ idv) := by
  refine ⟨fun s hs => ?_, fun s hs href => ?_, fun s hs hne => ?_, fun r hr => ?_⟩
  · simp only [Db.deleteKeypairById, List.mem_map] at hs
    obtain ⟨s0, _, rfl⟩ := hs
    by_cases h : s0.default_keypair_id = some idv <;> simp [h]
  · have := List.mem_map_of_mem
      (fun s => if s.default_keypair_id = some idv then
        { s with default_keypair_id := none } else s) hs
    simpa [Db.deleteKeypairById, href] using this
  · have := List.mem_map_of_mem
      (fun s => if s.default_keypair_id = some idv then
        { s with default_keypair_id := none } else s) hs
    simpa [Db.deleteKeypairById, hne] using this
  · simp only [Db.deleteKeypairById, List.mem_filter] at hr
    simpa using hr.2

/-- Closed witness for the C3 theorem: deleting keypair id 1 while the
settings row references it. -/
theorem delete_keypair_nulls_settings_reference_witness :
    { Db.settingsSeedRow with default_keypair_id := none } ∈
      (Db.deleteKeypairById
        { emptyDb with
          settings := [{ Db.settingsSeedRow with default_keypair_id := some 1 }] }
        1).settings :=
  (delete_keypair_nulls_settings_reference
      { emptyDb with
        settings := [{ Db.settingsSeedRow with default_keypair_id := some 1 }] }
      1).2.1
    { Db.settingsSeedRow with default_keypair_id := some 1 }
    (by decide) (by decide)

/-- C9: toggling a contact's trusted flag from false to true stamps
`last_verified_at` with the current time; toggling from true to false
writes the flag off while `last_verified_at` keeps its prior value; rows
with a different id are untouched.  `c` is the in-memory snapshot of the
stored row `r` the menu code passes in. -/
theorem toggle_trust_stamps_only_on_trust (st : DbState) (now : String)
    (c : Contact) (r : ContactRow) (hmem : r ∈ st.contact) (hid : r.id = c.id)
    (_htr : c.trusted = intToBool r.trusted)
    (hlv : c.last_verified_at = r.last_verified_at) :
    (c.trusted = false →
      { r with trusted := 1, last_verified_at := some now, updated_at := now }
        ∈ (KeyManager.toggleContactTrust st now c).contact) ∧
    (c.trusted = true →
      { r with trusted := 0, last_verified_at := r.last_verified_at,
               updated_at := now }
        ∈ (KeyManager.toggleContactTrust st now c).contact) ∧
    (∀ r2 ∈ st.contact, r2.id ≠ c.id →
      r2 ∈ (KeyManager.toggleContactTrust st now c).contact) := by
  refine ⟨fun hf => ?_, fun ht => ?_, fun r2 hr2 hne => ?_⟩
  · have := List.mem_map_of_mem
      (fun r => if r.id = c.id then
        Db.applyContactUpdate now
          { trusted := some (!c.trusted),
            last_verified_at :=
              some (if !c.trusted then some now else c.last_verified_at) } r
        else r) hmem
    simpa [KeyManager.toggleContactTrust, Db.updateContactById,
      Db.applyContactUpdate, hid, hf, boolToInt] using this
  · have := List.mem_map_of_mem
      (fun r => if r.id = c.id then
        Db.applyContactUpdate now
          { trusted := some (!c.trusted),
            last_verified_at :=
              some (if !c.trusted then some now else c.last_verified_at) } r
        else r) hmem
    simpa [KeyManager.toggleContactTrust, Db.updateContactById,
      Db.applyContactUpdate, hid, ht, hlv, boolToInt] using this
  · have := List.mem_map_of_mem
      (fun r => if r.id = c.id then
        Db.applyContactUpdate now
          { trusted := some (!c.trusted),
            last_verified_at :=
              some (if !c.trusted then some now else c.last_verified_at) } r
        else r) hr2
    simpa [KeyManager.toggleContactTrust, Db.updateContactById, hne] using this

/-- Closed witness for the C9 theorem: untrusting a trusted contact keeps
its old verification timestamp. -/
theorem toggle_trust_stamps_only_on_trust_witness :
    { Db.contactRowOfInsert 1 "t1"
        { name := "Bob", email := "b@x.com", fingerprint := "CCCC",
          public_key := "pubC", algorithm := "RSA", key_size := "4096",
          trusted := true, last_verified_at := some "t0", notes := none,
          expires_at := none, revoked := false } with
      trusted := 0, last_verified_at := some "t0", updated_at := "t2" }
      ∈ (KeyManager.toggleContactTrust
          { emptyDb with
            contact := [Db.contactRowOfInsert 1 "t1"
              { name := "Bob", email := "b@x.com", fingerprint := "CCCC",
                public_key := "pubC", algorithm := "RSA", key_size := "4096",
                trusted := true, last_verified_at := some "t0", notes := none,
                expires_at := none, revoked := false }]
            contactSeq := 1 }
          "t2"
          (contactFromRow (Db.contactRowOfInsert 1 "t1"
            { name := "Bob", email := "b@x.com", fingerprint := "CCCC",
              public_key := "pubC", algorithm := "RSA", key_size := "4096",
              trusted := true, last_verified_at := some "t0", notes := none,
              expires_at := none, revoked := false }))).contact :=
  (toggle_trust_stamps_only_on_trust
      { emptyDb with
        contact := [Db.contactRowOfInsert 1 "t1"
          { name := "Bob", email := "b@x.com", fingerprint := "CCCC",
            public_key := "pubC", algorithm := "RSA", key_size := "4096",
            trusted := true, last_verified_at := some "t0", notes := none,
            expires_at := none, revoked := false }]
        contactSeq := 1 }
      "t2"
      (contactFromRow (Db.contactRowOfInsert 1 "t1"
        { name := "Bob", email := "b@x.com", fingerprint := "CCCC",
          public_key := "pubC", algorithm := "RSA", key_size := "4096",
          trusted := true, last_verified_at := some "t0", notes := none,
          expires_at := none, revoked := false }))
      (Db.contactRowOfInsert 1 "t1"
        { name := "Bob", email := "b@x.com", fingerprint := "CCCC",
          public_key := "pubC", algorithm := "RSA", key_size := "4096",
          trusted := true, last_verified_at := some "t0", notes := none,
          expires_at := none, revoked := false })
      (by decide) rfl rfl rfl).2.1 rfl

/-- C7: the conversion helpers are lossless and `Db.select` applies them,
but the row `Db.insert` itself returns is the RAW stored row: for a payload
with `passphrase_protected = true` the returned record carries the integer
1 (no `intToBool` at that read boundary), while reading the same row back
through `Db.select` yields the boolean `true`.  This exhibits the failing
input for the claim that every read boundary, including insert's own return
value, round-trips 0/1 to booleans. -/
theorem insert_returns_integer_encoded_row :
    (Db.insertKeypair emptyDb "t1" demoKeypairInsert).2.map
        (fun r => r.passphrase_protected) = .ok 1 ∧
    (Db.selectKeypairWhere (Db.insertKeypair emptyDb "t1" demoKeypairInsert).1
        .id 1).map (fun k => k.passphrase_protected) = [true] ∧
    (∀ b : Bool, intToBool (boolToInt b) = b) :=
  ⟨rfl, rfl, fun b => by cases b <;> rfl⟩

/-- C8 counterexample: on a row whose `id` field is the number 1, a
`not like` filter is NOT the complement of the `like` filter — the row
matches neither (`typeof rowValue === 'string'` fails in both callback
branches), whereas the claim's complement reading would return it from
`not like`. -/
theorem select_not_contains_not_complement :
    ¬ (([("id", Proto.Value.num 1)] : Proto.Row) ∈
        Proto.select [[("id", Proto.Value.num 1)]]
          (some { key := "id", compare := .notLike, value := .str "x" }) ↔
      ([("id", Proto.Value.num 1)] : Proto.Row) ∉
        Proto.select [[("id", Proto.Value.num 1)]]
          (some { key := "id", compare := .like, value := .str "x" })) := by
  decide

/-- The `like` branch of the filter callback in exact terms. -/
theorem matchesWhere_like_iff (k : String) (v : Proto.Value) (r : Proto.Row) :
    Proto.matchesWhere { key := k, compare := .like, value := v } r = true ↔
      ∃ s t, Proto.rowGet r k = .str s ∧ v = .str t ∧
        List.IsInfix t.data s.data := by
  unfold Proto.matchesWhere
  cases h : Proto.rowGet r k <;> cases v <;> simp [Proto.strIncludes, h]

/-- The `not like` branch of the filter callback in exact terms. -/
theorem matchesWhere_notLike_iff (k : String) (v : Proto.Value) (r : Proto.Row) :
    Proto.matchesWhere { key := k, compare := .notLike, value := v } r = true ↔
      ∃ s t, Proto.rowGet r k = .str s ∧ v = .str t ∧
        ¬ List.IsInfix t.data s.data := by
  unfold Proto.matchesWhere
  cases h : Proto.rowGet r k <;> cases v <;> simp [Proto.strIncludes, h]

/-- C8 (amended): `is` returns exactly the rows whose field value `===`
the filter value and `is not` exactly their complement within the table;
`like` returns exactly the rows whose field value and filter value are both
strings with the filter value a substring of the field value; `not like`
returns exactly the rows where both are strings and the containment fails
(so it complements `like` only over string-valued fields); a query without
a filter returns the whole table; and a filtered query is total, returning
the empty list when no row matches. -/
theorem select_comparator_semantics (table : List Proto.Row) (k : String)
    (v : Proto.Value) :
    (∀ r, r ∈ Proto.select table (some { key := k, compare := .is_, value := v }) ↔
      r ∈ table ∧ Proto.rowGet r k = v) ∧
    (∀ r, r ∈ Proto.select table (some { key := k, compare := .isNot, value := v }) ↔
      r ∈ table ∧ ¬ Proto.rowGet r k = v) ∧
    (∀ r, r ∈ Proto.select table (some { key := k, compare := .like, value := v }) ↔
      r ∈ table ∧ ∃ s t, Proto.rowGet r k = .str s ∧ v = .str t ∧
        List.IsInfix t.data s.data) ∧
    (∀ r, r ∈ Proto.select table (some { key := k, compare := .notLike, value := v }) ↔
      r ∈ table ∧ ∃ s t, Proto.rowGet r k = .str s ∧ v = .str t ∧
        ¬ List.IsInfix t.data s.data) ∧
    Proto.select table none = table ∧
    (∀ w : Proto.Where, (∀ r ∈ table, Proto.matchesWhere w r = false) →
      Proto.select table (some w) = []) := by
  refine ⟨fun r => ?_, fun r => ?_, fun r => ?_, fun r => ?_, rfl, fun w h => ?_⟩
  · simp [Proto.select, List.mem_filter, Proto.matchesWhere]
  · simp [Proto.select, List.mem_filter, Proto.matchesWhere]
  · simp only [Proto.select, List.mem_filter, matchesWhere_like_iff]
  · simp only [Proto.select, List.mem_filter, matchesWhere_notLike_iff]
  · simpa [Proto.select, List.filter_eq_nil_iff] using h

/-- Closed witness for the C8 amended theorem: a string field matching a
`like` filter. -/
theorem select_comparator_semantics_witness :
    ([("name", Proto.Value.str "alice")] : Proto.Row) ∈
      Proto.select [[("name", Proto.Value.str "alice")]]
        (some { key := "name", compare := .like, value := .str "lic" }) :=
  ((select_comparator_semantics [[("name", Proto.Value.str "alice")]]
      "name" (.str "lic")).2.2.1 _).mpr
    ⟨by decide, "alice", "lic", by decide, rfl, by decide⟩

/-- Row updates never change the primary key. -/
theorem applyKeypairUpdate_id (now : String) (u : Db.KeypairUpdate)
    (r : KeypairRow) : (Db.applyKeypairUpdate now u r).id = r.id := rfl

/-- The `{ is_default: false }` update is idempotent. -/
theorem applyKeypairUpdate_unset_idem (now : String) (r : KeypairRow) :
    Db.applyKeypairUpdate now { is_default := some false }
        (Db.applyKeypairUpdate now { is_default := some false } r) =
      Db.applyKeypairUpdate now { is_default := some false } r := rfl

/-- `countP` only depends on the pointwise values of the predicate. -/
theorem countP_congr_mem {α : Type} {l : List α} {p q : α → Bool}
    (h : ∀ a ∈ l, p a = q a) : l.countP p = l.countP q := by
  rw [List.countP_eq_length_filter, List.countP_eq_length_filter,
    List.filter_congr h]

/-- The unset-defaults loop, described pointwise: each row whose id occurs
in the snapshot receives the unset update, the rest stay put. -/
theorem unsetDefaultsLoop_keypair (st : DbState) (now : String)
    (kps : List Keypair) :
    (KeyManager.unsetDefaultsLoop st now kps).keypair =
      st.keypair.map (unsetIfIn now (kps.map (fun kp => kp.id))) := by
  induction kps generalizing st with
  | nil =>
    show st.keypair = st.keypair.map (unsetIfIn now [])
    have h : st.keypair.map (unsetIfIn now []) = st.keypair.map (fun r => r) :=
      List.map_congr_left (fun r _ => by simp [unsetIfIn])
    simp [h]
  | cons kp kps ih =>
    have hstep : KeyManager.unsetDefaultsLoop st now (kp :: kps) =
        KeyManager.unsetDefaultsLoop
          (Db.updateKeypairById st now kp.id { is_default := some false })
          now kps := rfl
    rw [hstep, ih]
    simp only [Db.updateKeypairById, List.map_map, List.map_cons]
    refine List.map_congr_left (fun r _ => ?_)
    by_cases h : r.id = kp.id
    · by_cases h2 : r.id ∈ kps.map (fun kp => kp.id) <;>
        simp [unsetIfIn, h, h2, Function.comp,
          applyKeypairUpdate_id, applyKeypairUpdate_unset_idem]
    · by_cases h2 : r.id ∈ kps.map (fun kp => kp.id) <;>
        simp [unsetIfIn, h, h2, Function.comp]

/-- After the unset loop over a snapshot that covers every default row, no
row is default. -/
theorem defaultCount_unsetDefaultsLoop (st : DbState) (now : String)
    (kps : List Keypair)
    (H : ∀ r ∈ st.keypair, r.is_default = 1 →
      r.id ∈ kps.map (fun kp => kp.id)) :
    defaultCount (KeyManager.unsetDefaultsLoop st now kps) = 0 := by
  unfold defaultCount
  rw [unsetDefaultsLoop_keypair, List.countP_eq_zero]
  intro a ha
  rw [List.mem_map] at ha
  obtain ⟨r, hr, rfl⟩ := ha
  by_cases h : r.id ∈ kps.map (fun kp => kp.id)
  · simp [unsetIfIn, h, Db.applyKeypairUpdate, boolToInt]
  · intro hcontra
    simp only [unsetIfIn, h, if_neg, ite_false] at hcontra
    exact h (H r hr (by simpa using hcontra))

/-- Inserting a row raises the default count by at most the inserted row's
own flag (and not at all when the insert hits a constraint violation). -/
theorem defaultCount_insertKeypair_le (st : DbState) (now : String)
    (v : Db.KeypairInsert) :
    defaultCount (Db.insertKeypair st now v).1 ≤
      defaultCount st + boolToInt v.is_default := by
  unfold Db.insertKeypair
  by_cases hc : (st.keypair.any (fun r => r.email == v.email) ||
      st.keypair.any (fun r => r.fingerprint == v.fingerprint)) = true
  · simp [hc, defaultCount]
  · simp only [hc, if_false, Bool.false_eq_true, ite_false, defaultCount,
      List.countP_append]
    cases hd : v.is_default <;>
      simp [Db.keypairRowOfInsert, boolToInt, List.countP_cons, hd]

/-- An update that does not touch `is_default` preserves the default
count. -/
theorem defaultCount_updateKeypairById (st : DbState) (now : String)
    (idv : Nat) (u : Db.KeypairUpdate) (h : u.is_default = none) :
    defaultCount (Db.updateKeypairById st now idv u) = defaultCount st := by
  unfold defaultCount Db.updateKeypairById
  rw [List.countP_map]
  refine countP_congr_mem (fun r _ => ?_)
  by_cases hid : r.id = idv <;> simp [Function.comp, hid, Db.applyKeypairUpdate, h]

/-- Every default row's id occurs in the `is_default = 1` select used by
the import paths. -/
theorem defaults_ids_in_selectWhere (st : DbState) :
    ∀ r ∈ st.keypair, r.is_default = 1 →
      r.id ∈ (Db.selectKeypairWhere st .is_default 1).map (fun kp => kp.id) := by
  intro r hr h1
  unfold Db.selectKeypairWhere
  rw [List.map_map, List.mem_map]
  exact ⟨r, List.mem_filter.mpr ⟨hr, by simp [Db.KeypairRow.getWhereKey, h1]⟩, rfl⟩

/-- Every row's id occurs in the whole-table select used by
`generateKeypair` and `setDefaultKeypairById`. -/
theorem all_ids_in_selectAll (st : DbState) :
    ∀ r ∈ st.keypair, r.id ∈ (Db.selectKeypairAll st).map (fun kp => kp.id) := by
  intro r hr
  unfold Db.selectKeypairAll
  rw [List.map_map, List.mem_map]
  exact ⟨r, hr, rfl⟩

/-- After `setDefaultKeypairById`, the default count equals the number of
rows carrying the requested id. -/
theorem defaultCount_setDefaultKeypairById (st : DbState) (now : String)
    (idv : Nat) :
    defaultCount (KeyManager.setDefaultKeypairById st now idv) =
      st.keypair.countP (fun r => r.id == idv) := by
  unfold KeyManager.setDefaultKeypairById Db.updateKeypairById defaultCount
  simp only [unsetDefaultsLoop_keypair, List.countP_map]
  refine countP_congr_mem (fun r hr => ?_)
  have hmem : r.id ∈ (Db.selectKeypairAll st).map (fun kp => kp.id) :=
    all_ids_in_selectAll st r hr
  have hunset : unsetIfIn now ((Db.selectKeypairAll st).map (fun kp => kp.id)) r
      = Db.applyKeypairUpdate now { is_default := some false } r := by
    unfold unsetIfIn
    rw [if_pos hmem]
  simp only [Function.comp_apply, hunset]
  by_cases hid : r.id = idv
  · rw [if_pos (show (Db.applyKeypairUpdate now
        { is_default := some false } r).id = idv from hid)]
    simp [Db.applyKeypairUpdate, boolToInt, hid]
  · rw [if_neg (show ¬ (Db.applyKeypairUpdate now
        { is_default := some false } r).id = idv from hid)]
    simp [Db.applyKeypairUpdate, boolToInt, hid]

/-- On the verified path, the store `importKeypair` returns is the store
after the (conditional) unset loop and the insert, whether or not the
insert succeeded. -/
theorem importKeypair_fst_ok (st : DbState) (now : String)
    (pub priv : ArmoredKey) (pa pv nm : String) (info : KeyInfo) (md : Bool)
    (hv : verifyKeyPair pub priv = true) :
    (KeyManager.importKeypair st now pub priv pa pv nm info md).1 =
      (Db.insertKeypair
        (if md then
          KeyManager.unsetDefaultsLoop st now
            (Db.selectKeypairWhere st .is_default 1)
        else st) now (KeyManager.insertOfKeyInfo nm pa pv info md)).1 := by
  unfold KeyManager.importKeypair
  simp only [hv, Bool.not_true, Bool.false_eq_true, if_false]
  rcases h : Db.insertKeypair
      (if md then
        KeyManager.unsetDefaultsLoop st now
          (Db.selectKeypairWhere st .is_default 1)
      else st) now (KeyManager.insertOfKeyInfo nm pa pv info md) with ⟨a, b⟩
  cases b <;> simp [h]

/-- The store `generateKeypair` returns is the store after the
(conditional) whole-table unset loop and the insert. -/
theorem generateKeypair_fst (st : DbState) (now : String) (nm pa pv : String)
    (info : KeyInfo) (sd : Bool) :
    (KeyManager.generateKeypair st now nm pa pv info sd).1 =
      (Db.insertKeypair
        (if sd then
          KeyManager.unsetDefaultsLoop st now (Db.selectKeypairAll st)
        else st) now
        { KeyManager.insertOfKeyInfo nm pa pv info sd with
          passphrase_protected := true }).1 := by
  unfold KeyManager.generateKeypair
  rcases h : Db.insertKeypair
      (if sd then
        KeyManager.unsetDefaultsLoop st now (Db.selectKeypairAll st)
      else st) now
      { KeyManager.insertOfKeyInfo nm pa pv info sd with
        passphrase_protected := true } with ⟨a, b⟩
  cases b <;> simp [h]

/-- The store `importFromSystemGpg` returns is the store after the
(conditional) unset loop and the insert. -/
theorem importFromSystemGpg_fst (st : DbState) (now : String)
    (pa pv nm : String) (info : KeyInfo) (sd : Bool) :
    (KeyManager.importFromSystemGpg st now pa pv nm info sd).1 =
      (Db.insertKeypair
        (if sd then
          KeyManager.unsetDefaultsLoop st now
            (Db.selectKeypairWhere st .is_default 1)
        else st) now (KeyManager.insertOfKeyInfo nm pa pv info sd)).1 := by
  unfold KeyManager.importFromSystemGpg
  rcases h : Db.insertKeypair
      (if sd then
        KeyManager.unsetDefaultsLoop st now
          (Db.selectKeypairWhere st .is_default 1)
      else st) now (KeyManager.insertOfKeyInfo nm pa pv info sd) with ⟨a, b⟩
  cases b <;> simp [h]

/-- Deleting rows can only lower the default count. -/
theorem defaultCount_deleteKeypairById_le (st : DbState) (idv : Nat) :
    defaultCount (Db.deleteKeypairById st idv) ≤ defaultCount st := by
  unfold defaultCount Db.deleteKeypairById
  exact List.Sublist.countP_le _ (List.filter_sublist _)

/-- C1: every Key Lifecycle Manager operation — import, generate,
system-GPG import, set-default, rename, revoke, delete — preserves the
invariant that at most one persisted keypair row has `is_default = 1`; and
`setDefaultKeypairById` on an existing id (with distinct primary keys)
first clears every default and then leaves exactly one default row. -/
theorem single_default_invariant :
    (∀ (st : DbState) (now : String) (pub priv : ArmoredKey)
        (pa pv nm : String) (info : KeyInfo) (md : Bool),
      atMostOneDefault st →
      atMostOneDefault
        (KeyManager.importKeypair st now pub priv pa pv nm info md).1) ∧
    (∀ (st : DbState) (now nm pa pv : String) (info : KeyInfo) (sd : Bool),
      atMostOneDefault st →
      atMostOneDefault (KeyManager.generateKeypair st now nm pa pv info sd).1) ∧
    (∀ (st : DbState) (now pa pv nm : String) (info : KeyInfo) (sd : Bool),
      atMostOneDefault st →
      atMostOneDefault
        (KeyManager.importFromSystemGpg st now pa pv nm info sd).1) ∧
    (∀ (st : DbState) (now : String) (idv : Nat),
      keypairIdsNodup st →
      atMostOneDefault (KeyManager.setDefaultKeypairById st now idv)) ∧
    (∀ (st : DbState) (now : String) (idv : Nat),
      keypairIdsNodup st → idv ∈ st.keypair.map (fun r => r.id) →
      defaultCount (KeyManager.setDefaultKeypairById st now idv) = 1) ∧
    (∀ (st : DbState) (now : String) (idv : Nat) (nm : String),
      atMostOneDefault st →
      atMostOneDefault (KeyManager.renameKeypair st now idv nm)) ∧
    (∀ (st : DbState) (now : String) (idv : Nat) (reason : Option String),
      atMostOneDefault st →
      atMostOneDefault (KeyManager.revokeKeypair st now idv reason)) ∧
    (∀ (st : DbState) (idv : Nat) (confirm : Bool),
      atMostOneDefault st →
      atMostOneDefault (KeyManager.deleteKeypairById st idv confirm).1) := by
  have hcount : ∀ (st : DbState) (idv : Nat),
      st.keypair.countP (fun r => r.id == idv) =
        List.count idv (st.keypair.map (fun r => r.id)) := by
    intro st idv
    rw [show List.count idv (st.keypair.map (fun r => r.id)) =
        List.countP (fun x => x == idv) (st.keypair.map (fun r => r.id)) from
        rfl,
      List.countP_map]
    rfl
  refine ⟨?_, ?_, ?_, ?_, ?_, ?_, ?_, ?_⟩
  · intro st now pub priv pa pv nm info md hle
    by_cases hv : verifyKeyPair pub priv = true
    · rw [atMostOneDefault, importKeypair_fst_ok st now pub priv pa pv nm info md hv]
      refine le_trans (defaultCount_insertKeypair_le _ now _) ?_
      cases md
      · simpa [KeyManager.insertOfKeyInfo, boolToInt] using hle
      · have h0 : defaultCount (KeyManager.unsetDefaultsLoop st now
            (Db.selectKeypairWhere st .is_default 1)) = 0 :=
          defaultCount_unsetDefaultsLoop _ _ _ (defaults_ids_in_selectWhere st)
        simp [h0, KeyManager.insertOfKeyInfo, boolToInt]
    · have hv2 : verifyKeyPair pub priv = false := by simpa using hv
      simpa [KeyManager.importKeypair, hv2] using hle
  · intro st now nm pa pv info sd hle
    rw [atMostOneDefault, generateKeypair_fst st now nm pa pv info sd]
    refine le_trans (defaultCount_insertKeypair_le _ now _) ?_
    cases sd
    · simpa [KeyManager.insertOfKeyInfo, boolToInt] using hle
    · have h0 : defaultCount (KeyManager.unsetDefaultsLoop st now
          (Db.selectKeypairAll st)) = 0 :=
        defaultCount_unsetDefaultsLoop _ _ _
          (fun r hr _ => all_ids_in_selectAll st r hr)
      simp [h0, KeyManager.insertOfKeyInfo, boolToInt]
  · intro st now pa pv nm info sd hle
    rw [atMostOneDefault, importFromSystemGpg_fst st now pa pv nm info sd]
    refine le_trans (defaultCount_insertKeypair_le _ now _) ?_
    cases sd
    · simpa [KeyManager.insertOfKeyInfo, boolToInt] using hle
    · have h0 : defaultCount (KeyManager.unsetDefaultsLoop st now
          (Db.selectKeypairWhere st .is_default 1)) = 0 :=
        defaultCount_unsetDefaultsLoop _ _ _ (defaults_ids_in_selectWhere st)
      simp [h0, KeyManager.insertOfKeyInfo, boolToInt]
  · intro st now idv hnd
    rw [atMostOneDefault, defaultCount_setDefaultKeypairById, hcount]
    exact List.nodup_iff_count_le_one.mp hnd idv
  · intro st now idv hnd hmem
    rw [defaultCount_setDefaultKeypairById, hcount]
    have hle : List.count idv (st.keypair.map (fun r => r.id)) ≤ 1 :=
      List.nodup_iff_count_le_one.mp hnd idv
    have hge : 0 < List.count idv (st.keypair.map (fun r => r.id)) :=
      List.count_pos_iff.mpr hmem
    omega
  · intro st now idv nm hle
    rw [atMostOneDefault, KeyManager.renameKeypair,
      defaultCount_updateKeypairById st now idv _ rfl]
    exact hle
  · intro st now idv reason hle
    rw [atMostOneDefault, KeyManager.revokeKeypair,
      defaultCount_updateKeypairById st now idv _ rfl]
    exact hle
  · intro st idv confirm hle
    cases confirm
    · simpa [KeyManager.deleteKeypairById] using hle
    · simp only [KeyManager.deleteKeypairById, if_true]
      exact le_trans (defaultCount_deleteKeypairById_le st idv) hle

/-- Closed witness for the C1 theorem: setting keypair 1 as default in a
two-row store where keypair 2 was the default leaves exactly one default
row. -/
theorem single_default_invariant_witness :
    defaultCount (KeyManager.setDefaultKeypairById
      { emptyDb with
        keypair :=
          [Db.keypairRowOfInsert 1 "t1" demoKeypairInsert,
           Db.keypairRowOfInsert 2 "t2"
             { demoKeypairInsert with
               email := "b@x.com", fingerprint := "BBBB" }]
        keypairSeq := 2 } "t3" 1) = 1 :=
  single_default_invariant.2.2.2.2.1
    { emptyDb with
      keypair :=
        [Db.keypairRowOfInsert 1 "t1" demoKeypairInsert,
         Db.keypairRowOfInsert 2 "t2"
           { demoKeypairInsert with
             email := "b@x.com", fingerprint := "BBBB" }]
      keypairSeq := 2 } "t3" 1 (by unfold keypairIdsNodup; decide) (by decide)

end Pgp
